import Mathlib

/-!
Verification of the attendance-rate calculator and the attendance-post
error translation of the Attendify2 backend.

The embedded code:
* `attendance_score`, `actual_attendance_score` — the two score dictionaries
  of `src/app/utils.py` (lines 83–99).  A Python dict lookup is modelled as a
  function `String → Option (Option ℕ)`: the outer `Option` is key
  membership, the inner one is the stored value (`'講習' ↦ None` is a present
  key whose value is `None`).
* `Attendances.calc` — the rate computation of `src/app/utils.py`
  (lines 45–70).  The Python code divides two `Decimal`s built from
  nonnegative integers and quantizes to one decimal place with
  `ROUND_HALF_UP`; for any list shorter than 10^25 records the 28-digit
  `Decimal` context makes that division exact as far as the quantization can
  see, so it is embedded as exact rational division followed by
  `roundHalfUp1`.  The final `float(...)` conversion is modelled as the exact
  decimal value it converts.
* `add_attendance` / `post_attendance` — the write path of
  `src/app/routers/attendance.py` (lines 36–53) over an in-memory store,
  with the uniqueness constraint of `models.Attendance` (`UniqueConstraint
  ("date", "member_id")`) enforced by the store.
-/

namespace Attendify

/-- One attendance record, as in `app/schemas/attendance.py` (class
`Attendance`).  Identifiers and dates are abstracted to `ℕ`; timestamps are
dropped (they never influence the embedded operations). -/
structure Attendance where
  id : ℕ
  date : ℕ
  attendance : String
  member_id : Option ℕ
deriving DecidableEq

/-- The `attendance_score` dict of `app/utils.py` (lines 83–90): the NOMINAL
score table.  `some none` is a key explicitly mapped to Python `None`;
`none` is an absent key. -/
def attendance_score (s : String) : Option (Option ℕ) :=
  if s = "出席" then some (some 100)
  else if s = "欠席" then some (some 0)
  else if s = "講習" then some none
  else if s = "遅刻" then some (some 50)
  else if s = "早退" then some (some 50)
  else if s = "無欠" then some (some 0)
  else none

/-- The `actual_attendance_score` dict of `app/utils.py` (lines 92–99): the
ACTUAL score table. -/
def actual_attendance_score (s : String) : Option (Option ℕ) :=
  if s = "出席" then some (some 100)
  else if s = "欠席" then some (some 0)
  else if s = "講習" then some (some 0)
  else if s = "遅刻" then some (some 50)
  else if s = "早退" then some (some 50)
  else if s = "無欠" then some (some 0)
  else none

/-- `scores = actual_attendance_score if actual else attendance_score`
(`app/utils.py` line 49). -/
def scoresFor : Bool → String → Option (Option ℕ)
  | true => actual_attendance_score
  | false => attendance_score

/-- Python `ROUND_HALF_UP` quantization to one decimal place: round to the
nearest tenth, ties away from zero. -/
def roundHalfUp1 (q : ℚ) : ℚ :=
  if q < 0 then -((⌊-q * 10 + 1/2⌋ : ℚ) / 10)
  else (⌊q * 10 + 1/2⌋ : ℚ) / 10

/-- The body of the `for attendance in self:` loop of `Attendances.calc`
(`app/utils.py` lines 54–62), acting on the accumulator
`(total, score)`. -/
def calcStep (scores : String → Option (Option ℕ)) (actual : Bool)
    (acc : ℕ × ℕ) (a : Attendance) : ℕ × ℕ :=
  match scores a.attendance with
  | some (some s) => (acc.1 + 1, acc.2 + s)
  | some none => acc
  | none => if actual then (acc.1 + 1, acc.2) else acc

/-- `Attendances.calc` of `app/utils.py` (lines 45–70). -/
def Attendances.calc (l : List Attendance) (actual : Bool) : Option ℚ :=
  if l.isEmpty then none
  else
    let scores := scoresFor actual
    let ts := l.foldl (calcStep scores actual) (0, 0)
    if ts.1 = 0 then none
    else some (roundHalfUp1 ((ts.2 : ℚ) / (ts.1 : ℚ)))

/-- Whether a record contributes to the denominator (`total`) of
`Attendances.calc`: its status is in the active table with a non-`None`
score, or — in ACTUAL mode only — absent from the table. -/
def contributes (actual : Bool) (a : Attendance) : Bool :=
  match scoresFor actual a.attendance with
  | some (some _) => true
  | some none => false
  | none => actual

/-- The amount a record adds to the numerator (`score`) of
`Attendances.calc`: its mapped score, or 0 when unscored or unknown. -/
def recordScore (actual : Bool) (a : Attendance) : ℕ :=
  match scoresFor actual a.attendance with
  | some (some s) => s
  | _ => 0

/-- The denominator accumulated by `Attendances.calc`: the number of
contributing records. -/
def denominator (actual : Bool) (l : List Attendance) : ℕ :=
  l.countP (contributes actual)

/-- The numerator accumulated by `Attendances.calc`: the sum of the mapped
scores. -/
def numerator (actual : Bool) (l : List Attendance) : ℕ :=
  (l.map (recordScore actual)).sum

/-! Concrete records used by examples and witnesses.  Only the status
string matters to `Attendances.calc`; ids, dates and member ids are
arbitrary. -/

def presentRec : Attendance := ⟨0, 0, "出席", some 0⟩

def absentRec : Attendance := ⟨1, 0, "欠席", some 1⟩

def excusedRec : Attendance := ⟨2, 0, "講習", some 2⟩

def lateRec : Attendance := ⟨3, 0, "遅刻", some 3⟩

/-- A record whose status string is a key of neither score table. -/
def unknownRec : Attendance := ⟨4, 0, "公欠", some 4⟩

/-- The example of the spec: present, present, absent, excused. -/
def exampleFour : List Attendance := [presentRec, presentRec, absentRec, excusedRec]

/-- Two present and one absent: nominal ratio 200/3 = 66.666... . -/
def exampleThird : List Attendance := [presentRec, presentRec, absentRec]

/-- One late and seven absent: nominal ratio 50/8 = 6.25, an exact tie at
the first decimal. -/
def exampleTie : List Attendance :=
  [lateRec, absentRec, absentRec, absentRec, absentRec, absentRec, absentRec, absentRec]

/-! The attendance write path (`app/routers/attendance.py`,
`app/database/cruds.py`, `app/database/models.py`, `app/abc/api_error.py`). -/

/-- A row of the `attendances` table (`app/database/models.py`, class
`Attendance`): the columns that decide the uniqueness constraint, plus
the status. -/
structure AttendanceRow where
  date : ℕ
  member_id : ℕ
  attendance : String
deriving DecidableEq

/-- `sqlalchemy.exc.IntegrityError`, as raised on a constraint violation. -/
inductive DBError
  | integrityError
deriving DecidableEq

/-- `APIErrorCode` of `app/abc/api_error.py` (lines 6–12, an `IntEnum`). -/
inductive APIErrorCode
  | INVALID_AUTHENTICATION_CREDENTIALS
  | PERMISSION_DENIED
  | AUTHENTICATION_FAILED
  | ALREADY_EXISTS_ATTENDANCE
  | ALREADY_EXISTS_MEMBER_EMAIL
deriving DecidableEq

/-- The integer values of `APIErrorCode`. -/
def APIErrorCode.value : APIErrorCode → ℕ
  | .INVALID_AUTHENTICATION_CREDENTIALS => 100
  | .PERMISSION_DENIED => 101
  | .AUTHENTICATION_FAILED => 102
  | .ALREADY_EXISTS_ATTENDANCE => 200
  | .ALREADY_EXISTS_MEMBER_EMAIL => 201

/-- `APIError` of `app/abc/api_error.py` (lines 18–21). -/
structure APIError where
  code : APIErrorCode
  detail : String
  status_code : ℕ
deriving DecidableEq

/-- `APIErrorCode.of` (`app/abc/api_error.py` lines 14–15). -/
def APIErrorCode.of (c : APIErrorCode) (detail : String) (status_code : ℕ) : APIError :=
  ⟨c, detail, status_code⟩

/-- Modelled from the spec: the relational engine's enforcement of
`UniqueConstraint("date", "member_id")` declared on `models.Attendance`
(`app/database/models.py` lines 139–143) is not code under `src/`; a plain
INSERT of a row whose (date, member_id) pair is already present raises
`IntegrityError`.  `cruds.add_attendance` (`app/database/cruds.py` lines
52–77) performs that plain insert-and-commit when `overwrite=False`, and an
`ON CONFLICT (date, member_id) DO UPDATE` upsert of the attendance value
when `overwrite=True`. -/
def add_attendance (store : List AttendanceRow) (a : AttendanceRow) (overwrite : Bool) :
    Except DBError (List AttendanceRow) :=
  if overwrite then
    if store.any (fun r => r.date == a.date && r.member_id == a.member_id) then
      .ok (store.map (fun r =>
        if r.date == a.date && r.member_id == a.member_id then
          { r with attendance := a.attendance }
        else r))
    else .ok (store ++ [a])
  else
    if store.any (fun r => r.date == a.date && r.member_id == a.member_id) then
      .error .integrityError
    else .ok (store ++ [a])

/-- `post_attendance` of `app/routers/attendance.py` (lines 36–53): the
write, with the background rate recalculation and the response shaping
elided; an `IntegrityError` from the insert is caught and translated into
`APIErrorCode.ALREADY_EXISTS_ATTENDANCE.of("Already exists attendance")`
(default status code 400). -/
def post_attendance (store : List AttendanceRow) (a : AttendanceRow) (overwrite : Bool) :
    Except APIError (List AttendanceRow) :=
  match add_attendance store a overwrite with
  | .ok s => .ok s
  | .error .integrityError =>
      .error (APIErrorCode.ALREADY_EXISTS_ATTENDANCE.of "Already exists attendance" 400)

lemma calc_foldl (actual : Bool) (l : List Attendance) (p : ℕ × ℕ) :
    l.foldl (calcStep (scoresFor actual) actual) p
      = (p.1 + denominator actual l, p.2 + numerator actual l) := by
  induction l generalizing p with
  | nil => simp [denominator, numerator]
  | cons a l ih =>
    rw [List.foldl_cons, ih]
    rcases hsc : scoresFor actual a.attendance with _ | ⟨_ | sc⟩
    · cases actual <;>
        simp [denominator, numerator, List.countP_cons, calcStep,
          contributes, recordScore, hsc] <;> omega
    · simp [denominator, numerator, List.countP_cons, calcStep,
        contributes, recordScore, hsc] <;> omega
    · simp [denominator, numerator, List.countP_cons, calcStep,
        contributes, recordScore, hsc] <;> omega

lemma calc_eq_of_denominator_ne_zero (actual : Bool) (l : List Attendance)
    (h : denominator actual l ≠ 0) :
    Attendances.calc l actual
      = some (roundHalfUp1 ((numerator actual l : ℚ) / (denominator actual l : ℚ))) := by
  have hne : l ≠ [] := by
    rintro rfl
    exact h rfl
  simp only [Attendances.calc, calc_foldl]
  simp [hne, h]

lemma calc_eq_none_iff (actual : Bool) (l : List Attendance) :
    Attendances.calc l actual = none ↔ denominator actual l = 0 := by
  simp only [Attendances.calc, calc_foldl]
  rcases l with _ | ⟨a, l⟩
  · simp [denominator]
  · simp

lemma contributes_true_eq (a : Attendance) : contributes true a = true := by
  simp only [contributes, scoresFor, actual_attendance_score]
  split_ifs <;> rfl

lemma recordScore_eq (a : Attendance) : recordScore true a = recordScore false a := by
  simp only [recordScore, scoresFor, attendance_score, actual_attendance_score]
  split_ifs <;> rfl

lemma numerator_eq (l : List Attendance) : numerator true l = numerator false l := by
  unfold numerator
  rw [funext recordScore_eq]

lemma denominator_le (l : List Attendance) :
    denominator false l ≤ denominator true l :=
  List.countP_mono_left (fun a _ _ => contributes_true_eq a)

lemma roundHalfUp1_natCast (n : ℕ) : roundHalfUp1 (n : ℚ) = n := by
  unfold roundHalfUp1
  rw [if_neg (not_lt.2 (by positivity))]
  have h1 : ⌊(n : ℚ) * 10 + 1/2⌋ = (10 * n : ℤ) :=
    Int.floor_eq_iff.2 ⟨by push_cast; linarith, by push_cast; linarith⟩
  rw [h1]
  push_cast
  ring

lemma roundHalfUp1_mono {a b : ℚ} (h0 : 0 ≤ a) (h : a ≤ b) :
    roundHalfUp1 a ≤ roundHalfUp1 b := by
  unfold roundHalfUp1
  rw [if_neg (not_lt.2 h0), if_neg (not_lt.2 (h0.trans h))]
  have hf : ⌊a * 10 + 1/2⌋ ≤ ⌊b * 10 + 1/2⌋ := Int.floor_le_floor (by linarith)
  exact (div_le_div_right (by norm_num)).2 (by exact_mod_cast hf)

/-- C1: whenever at least one record contributes to the denominator,
`Attendances.calc` returns the numerator/denominator ratio — each
contributing record adding 1 to the denominator and its mapped score to the
numerator — rounded half-up to one decimal place, on the 0–100 percentage
scale (the mapped scores are already percentages). -/
theorem calc_returns_rounded_half_up_rate (l : List Attendance) (actual : Bool)
    (h : denominator actual l ≠ 0) :
    Attendances.calc l actual
      = some (roundHalfUp1 ((numerator actual l : ℚ) / (denominator actual l : ℚ))) :=
  calc_eq_of_denominator_ne_zero actual l h

theorem calc_returns_rounded_half_up_rate_witness :
    denominator false exampleThird ≠ 0 ∧
    Attendances.calc exampleThird false
      = some (roundHalfUp1 ((numerator false exampleThird : ℚ) / (denominator false exampleThird : ℚ))) :=
  ⟨by decide, calc_returns_rounded_half_up_rate exampleThird false (by decide)⟩

/-- C2: `Attendances.calc` returns `none` exactly when zero records
contribute to the denominator; in particular the empty list yields `none`
in either mode, distinguishing "no data" from "0% attendance". -/
theorem calc_absent_iff_no_contributing_records :
    (∀ (l : List Attendance) (actual : Bool),
      Attendances.calc l actual = none ↔ denominator actual l = 0) ∧
    ∀ actual : Bool, Attendances.calc [] actual = none :=
  ⟨fun l actual => calc_eq_none_iff actual l, fun _ => rfl⟩

/-- C3: a record whose status is a key of neither score table is counted
by `Attendances.calc` in the denominator with score 0 under ACTUAL mode,
and is ignored entirely under NOMINAL mode — it changes neither the
numerator nor the denominator, and leaves the NOMINAL result unchanged. -/
theorem unknown_status_actual_counts_nominal_ignores
    (l1 l2 : List Attendance) (a : Attendance)
    (hnom : attendance_score a.attendance = none)
    (hact : actual_attendance_score a.attendance = none) :
    (denominator true (l1 ++ a :: l2) = denominator true (l1 ++ l2) + 1 ∧
      numerator true (l1 ++ a :: l2) = numerator true (l1 ++ l2)) ∧
    (denominator false (l1 ++ a :: l2) = denominator false (l1 ++ l2) ∧
      numerator false (l1 ++ a :: l2) = numerator false (l1 ++ l2) ∧
      Attendances.calc (l1 ++ a :: l2) false = Attendances.calc (l1 ++ l2) false) := by
  have hd : denominator false (l1 ++ a :: l2) = denominator false (l1 ++ l2) := by
    simp [denominator, List.countP_append, List.countP_cons, contributes, scoresFor, hnom]
  have hn : numerator false (l1 ++ a :: l2) = numerator false (l1 ++ l2) := by
    simp [numerator, List.map_append, List.sum_append, recordScore, scoresFor, hnom]
  refine ⟨⟨?_, ?_⟩, hd, hn, ?_⟩
  · simp [denominator, List.countP_append, List.countP_cons, contributes, scoresFor, hact]
    omega
  · simp [numerator, List.map_append, List.sum_append, recordScore, scoresFor, hact]
  · by_cases h0 : denominator false (l1 ++ l2) = 0
    · rw [(calc_eq_none_iff false (l1 ++ a :: l2)).2 (by rw [hd]; exact h0),
        (calc_eq_none_iff false (l1 ++ l2)).2 h0]
    · rw [calc_eq_of_denominator_ne_zero false (l1 ++ a :: l2) (by rw [hd]; exact h0),
        calc_eq_of_denominator_ne_zero false (l1 ++ l2) h0, hd, hn]

theorem unknown_status_actual_counts_nominal_ignores_witness :
    (denominator true ([presentRec] ++ unknownRec :: []) = denominator true ([presentRec] ++ []) + 1 ∧
      numerator true ([presentRec] ++ unknownRec :: []) = numerator true ([presentRec] ++ [])) ∧
    (denominator false ([presentRec] ++ unknownRec :: []) = denominator false ([presentRec] ++ []) ∧
      numerator false ([presentRec] ++ unknownRec :: []) = numerator false ([presentRec] ++ []) ∧
      Attendances.calc ([presentRec] ++ unknownRec :: []) false
        = Attendances.calc ([presentRec] ++ []) false) :=
  unknown_status_actual_counts_nominal_ignores [presentRec] [] unknownRec (by decide) (by decide)

/-- C4: the NOMINAL and ACTUAL score tables agree on every status except
the excused/lecture status `講習`, which NOMINAL maps to `None` (unscored)
and ACTUAL maps to 0; consequently a `講習` record changes neither the
numerator nor the denominator of `Attendances.calc` under NOMINAL mode,
while under ACTUAL mode it adds 1 to the denominator and 0 to the
numerator. -/
theorem score_tables_differ_only_on_excused :
    (∀ s : String, s ≠ "講習" → attendance_score s = actual_attendance_score s) ∧
    attendance_score "講習" = some none ∧
    actual_attendance_score "講習" = some (some 0) ∧
    ∀ (l1 l2 : List Attendance) (a : Attendance), a.attendance = "講習" →
      (denominator false (l1 ++ a :: l2) = denominator false (l1 ++ l2) ∧
        numerator false (l1 ++ a :: l2) = numerator false (l1 ++ l2)) ∧
      (denominator true (l1 ++ a :: l2) = denominator true (l1 ++ l2) + 1 ∧
        numerator true (l1 ++ a :: l2) = numerator true (l1 ++ l2)) := by
  refine ⟨?_, by decide, by decide, ?_⟩
  · intro s hs
    simp only [attendance_score, actual_attendance_score]
    split_ifs <;> simp_all
  · intro l1 l2 a ha
    refine ⟨⟨?_, ?_⟩, ?_, ?_⟩
    · simp +decide [denominator, List.countP_append, List.countP_cons, contributes,
        scoresFor, ha, attendance_score]
    · simp +decide [numerator, List.map_append, List.sum_append, recordScore,
        scoresFor, ha, attendance_score]
    · simp +decide [denominator, List.countP_append, List.countP_cons, contributes,
        scoresFor, ha, actual_attendance_score]
      omega
    · simp +decide [numerator, List.map_append, List.sum_append, recordScore,
        scoresFor, ha, actual_attendance_score]

theorem score_tables_differ_only_on_excused_witness :
    attendance_score "出席" = actual_attendance_score "出席" ∧
    ((denominator false ([presentRec] ++ excusedRec :: []) = denominator false ([presentRec] ++ []) ∧
      numerator false ([presentRec] ++ excusedRec :: []) = numerator false ([presentRec] ++ [])) ∧
     (denominator true ([presentRec] ++ excusedRec :: []) = denominator true ([presentRec] ++ []) + 1 ∧
      numerator true ([presentRec] ++ excusedRec :: []) = numerator true ([presentRec] ++ []))) :=
  ⟨score_tables_differ_only_on_excused.1 "出席" (by decide),
   score_tables_differ_only_on_excused.2.2.2 [presentRec] [] excusedRec rfl⟩

/-- C5: on the same input list, whenever both modes produce a rate, the
NOMINAL rate is greater than or equal to the ACTUAL rate. -/
theorem nominal_rate_ge_actual_rate (l : List Attendance) (qn qa : ℚ)
    (hn : Attendances.calc l false = some qn)
    (ha : Attendances.calc l true = some qa) : qa ≤ qn := by
  have hdn : denominator false l ≠ 0 := by
    intro h0
    rw [(calc_eq_none_iff false l).2 h0] at hn
    exact Option.noConfusion hn
  have hdt : denominator true l ≠ 0 := by
    have := denominator_le l
    omega
  rw [calc_eq_of_denominator_ne_zero false l hdn] at hn
  rw [calc_eq_of_denominator_ne_zero true l hdt] at ha
  obtain rfl := (Option.some.inj hn).symm
  obtain rfl := (Option.some.inj ha).symm
  rw [numerator_eq]
  apply roundHalfUp1_mono
  · positivity
  · apply div_le_div_of_nonneg_left
    · positivity
    · exact_mod_cast Nat.pos_of_ne_zero hdn
    · exact_mod_cast denominator_le l

theorem nominal_rate_ge_actual_rate_witness : (50 : ℚ) ≤ 667/10 := by
  refine nominal_rate_ge_actual_rate exampleFour (667/10) 50 ?_ ?_ <;>
    (simp +decide [Attendances.calc, exampleFour, presentRec, absentRec, excusedRec,
      calcStep, scoresFor, attendance_score, actual_attendance_score, roundHalfUp1]; norm_num)

/-- C6: on a non-empty list in which every status maps, in the active
score table, to one fixed score `s`, `Attendances.calc` returns exactly
`s`. -/
theorem calc_constant_score (l : List Attendance) (actual : Bool) (s : ℕ)
    (hne : l ≠ [])
    (h : ∀ a ∈ l, scoresFor actual a.attendance = some (some s)) :
    Attendances.calc l actual = some ((s : ℕ) : ℚ) := by
  have hc : ∀ a ∈ l, contributes actual a = true := by
    intro a ha
    simp [contributes, h a ha]
  have hd : denominator actual l = l.length := List.countP_eq_length.2 hc
  have hnum : numerator actual l = s * l.length := by
    unfold numerator
    rw [List.sum_eq_card_nsmul (l.map (recordScore actual)) s]
    · simp [Nat.mul_comm]
    · intro x hx
      obtain ⟨a, ha, rfl⟩ := List.mem_map.1 hx
      simp [recordScore, h a ha]
  have hlen : l.length ≠ 0 := fun h0 => hne (List.length_eq_zero.1 h0)
  have hd0 : denominator actual l ≠ 0 := by rw [hd]; exact hlen
  rw [calc_eq_of_denominator_ne_zero actual l hd0, hd, hnum]
  have hq : (0:ℚ) < (l.length : ℚ) := by exact_mod_cast Nat.pos_of_ne_zero hlen
  have hr : ((s * l.length : ℕ) : ℚ) / (l.length : ℚ) = ((s : ℕ) : ℚ) := by
    push_cast
    field_simp
  rw [hr, roundHalfUp1_natCast]

theorem calc_constant_score_witness :
    Attendances.calc [presentRec, presentRec] false = some ((100 : ℕ) : ℚ) :=
  calc_constant_score [presentRec, presentRec] false 100 (by decide) (by decide)

/-- C7: `Attendances.calc` rounds the numerator/denominator ratio to one
decimal place half-up: whenever the exact ratio has second decimal digit 5
(ratio = m/100 with m % 10 = 5) the result is (m+5)/100, i.e. the tie
rounds away from zero at the first decimal; and a ratio of 200/3 =
66.666... yields 66.7. -/
theorem calc_rounds_half_up :
    (∀ (l : List Attendance) (actual : Bool) (m : ℕ),
        denominator actual l ≠ 0 →
        100 * numerator actual l = m * denominator actual l →
        m % 10 = 5 →
        Attendances.calc l actual = some (((m : ℚ) + 5) / 100)) ∧
    Attendances.calc exampleThird false = some (667/10) := by
  constructor
  · intro l actual m hd hm h5
    rw [calc_eq_of_denominator_ne_zero actual l hd]
    congr 1
    have hD : (0:ℚ) < (denominator actual l : ℚ) := by
      exact_mod_cast Nat.pos_of_ne_zero hd
    have hrat : (numerator actual l : ℚ) / (denominator actual l : ℚ) = (m : ℚ) / 100 := by
      rw [div_eq_div_iff hD.ne' (by norm_num)]
      have hq := congrArg (fun n : ℕ => (n : ℚ)) hm
      push_cast at hq
      linarith
    rw [hrat]
    obtain ⟨k, rfl⟩ : ∃ k, m = 10 * k + 5 := ⟨m / 10, by omega⟩
    unfold roundHalfUp1
    rw [if_neg (not_lt.2 (by positivity))]
    have harg : ((10 * k + 5 : ℕ) : ℚ) / 100 * 10 + 1/2 = (((k + 1 : ℕ) : ℤ) : ℚ) := by
      push_cast
      ring
    rw [harg, Int.floor_intCast]
    push_cast
    ring
  · simp +decide [Attendances.calc, exampleThird, presentRec, absentRec, calcStep,
      scoresFor, attendance_score, roundHalfUp1]
    norm_num

theorem calc_rounds_half_up_witness :
    Attendances.calc exampleTie false = some (((625 : ℚ) + 5) / 100) :=
  calc_rounds_half_up.1 exampleTie false 625 (by decide) (by decide) (by decide)

/-- C8: on [present, present, absent, excused], `Attendances.calc` returns
66.7 under NOMINAL mode ((100+100+0)/3 rounded half-up) and 50.0 under
ACTUAL mode ((100+100+0+0)/4). -/
theorem calc_example_four_records :
    Attendances.calc exampleFour false = some (667/10) ∧
    Attendances.calc exampleFour true = some 50 := by
  constructor <;>
    (simp +decide [Attendances.calc, exampleFour, presentRec, absentRec, excusedRec,
      calcStep, scoresFor, attendance_score, actual_attendance_score, roundHalfUp1];
     norm_num)

/-- C9: a `post_attendance` write without overwrite whose (date, member_id)
pair collides with a stored row produces the domain error
`ALREADY_EXISTS_ATTENDANCE` (detail "Already exists attendance", HTTP 400),
not the raw `IntegrityError`. -/
theorem post_attendance_translates_integrity_error
    (store : List AttendanceRow) (a : AttendanceRow)
    (h : ∃ r ∈ store, r.date = a.date ∧ r.member_id = a.member_id) :
    post_attendance store a false
      = .error ⟨.ALREADY_EXISTS_ATTENDANCE, "Already exists attendance", 400⟩ := by
  have hany : store.any (fun r => r.date == a.date && r.member_id == a.member_id) = true := by
    obtain ⟨r, hr, h1, h2⟩ := h
    exact List.any_eq_true.2 ⟨r, hr, by simp [h1, h2]⟩
  simp [post_attendance, add_attendance, hany, APIErrorCode.of]

theorem post_attendance_translates_integrity_error_witness :
    post_attendance [⟨1, 1, "出席"⟩] ⟨1, 1, "欠席"⟩ false
      = .error ⟨.ALREADY_EXISTS_ATTENDANCE, "Already exists attendance", 400⟩ :=
  post_attendance_translates_integrity_error [⟨1, 1, "出席"⟩] ⟨1, 1, "欠席"⟩
    ⟨⟨1, 1, "出席"⟩, by simp, rfl, rfl⟩

/-- C10: the ACTUAL score table has no unscored (`None`) entry, and
`Attendances.calc` in ACTUAL mode returns `none` if and only if the input
list is empty: absence of an ACTUAL rate always means "no records". -/
theorem calc_actual_absent_iff_empty :
    (∀ s : String, actual_attendance_score s ≠ some none) ∧
    ∀ l : List Attendance, (Attendances.calc l true = none ↔ l = []) := by
  constructor
  · intro s
    simp only [actual_attendance_score]
    split_ifs <;> simp
  · intro l
    rw [calc_eq_none_iff]
    have hd : denominator true l = l.length :=
      List.countP_eq_length.2 (fun a _ => contributes_true_eq a)
    rw [hd, List.length_eq_zero]

theorem calc_actual_absent_iff_empty_witness :
    actual_attendance_score "公欠" ≠ some none ∧
    (Attendances.calc [] true = none ↔ ([] : List Attendance) = []) :=
  ⟨calc_actual_absent_iff_empty.1 "公欠", calc_actual_absent_iff_empty.2 []⟩

end Attendify
